import Mathlib

/-!
# Verification of the Dynamic Withdrawal Strategy core

Shallow embedding of the numeric core of the application:
* the compound growth projector (`projectionData`),
* the Guyton-Klinger guardrail withdrawal simulator (`runGKSimulation`),
* the Box-Muller return sampler (`generateRandomReturn`),
* the Monte-Carlo batch statistics (`calculateSuccessRate`, `calculateMedianFinal`).

JavaScript numbers are modelled as rationals (`ℚ`); the real-valued
Box-Muller sampler is modelled over `ℝ`.  `Math.round` is modelled as
`⌊x + 1/2⌋` (round half towards positive infinity), `Math.max(0, x)` as
`max 0 x`.
-/

namespace DWS

/-- JavaScript `Math.round`: round half towards positive infinity. -/
def jsRound (x : ℚ) : ℤ := ⌊x + 1 / 2⌋

/-! ## Compound growth projector -/

/-- One contribution strategy (`InvestmentTarget` in the source); the
`id`/`name` fields play no role in the arithmetic and are omitted. -/
structure InvestmentTarget where
  monthlyAmount : ℚ
  returnRate : ℚ
deriving DecidableEq, Repr

/-- `ProjectionParams` of the source (`initialReturnRate`, `years`, `targets`). -/
structure ProjectionParams where
  initialReturnRate : ℚ
  years : ℕ
  targets : List InvestmentTarget
deriving DecidableEq, Repr

/-- `YearlyResult` of the source: the rounded presentation values of one
yearly snapshot. -/
structure YearlyResult where
  year : ℕ
  principal : ℤ
  interest : ℤ
  total : ℤ
deriving DecidableEq, Repr

/-- The running (unrounded) state of the projection loop: the value grown
from the initial portfolio, the per-strategy balances, and the accumulated
contributed principal (`principalNewTotal` in the source). -/
structure ProjState where
  valueFromInitial : ℚ
  targetValues : List ℚ
  principalNewTotal : ℚ
deriving DecidableEq, Repr

/-- One month of the inner loop of `projectionData`: grow the initial
portfolio at its monthly rate; for each strategy add its monthly
contribution (also accumulated into the contributed principal) and then
compound the strategy balance at its own monthly rate. -/
def monthStep (p : ProjectionParams) (s : ProjState) : ProjState :=
  { valueFromInitial := s.valueFromInitial * (1 + p.initialReturnRate / 100 / 12)
    targetValues :=
      (p.targets.zip s.targetValues).map
        (fun tv => (tv.2 + tv.1.monthlyAmount) * (1 + tv.1.returnRate / 100 / 12))
    principalNewTotal :=
      s.principalNewTotal + (p.targets.map (fun t => t.monthlyAmount)).sum }

/-- The projection state after `m` month steps, starting from the current
total value with all strategy balances at 0. -/
def projStateAfterMonths (ctv : ℚ) (p : ProjectionParams) : ℕ → ProjState
  | 0 => ⟨ctv, p.targets.map (fun _ => 0), 0⟩
  | m + 1 => monthStep p (projStateAfterMonths ctv p m)

/-- The projection state after `y` whole years: the source's nested loop
runs 12 month steps per year, i.e. `12 * y` month steps in total. -/
def projStateAfterYears (ctv : ℚ) (p : ProjectionParams) (y : ℕ) : ProjState :=
  projStateAfterMonths ctv p (12 * y)

/-- The unrounded total value after `y` years: initial-portfolio value plus
the sum of all strategy balances. -/
def rawTotal (ctv : ℚ) (p : ProjectionParams) (y : ℕ) : ℚ :=
  (projStateAfterYears ctv p y).valueFromInitial +
    (projStateAfterYears ctv p y).targetValues.sum

/-- The unrounded principal after `y` years: starting value plus all
contributions made so far. -/
def rawPrincipal (ctv : ℚ) (p : ProjectionParams) (y : ℕ) : ℚ :=
  ctv + (projStateAfterYears ctv p y).principalNewTotal

/-- The snapshot pushed for year `y ≥ 1`: all three presentation values are
rounded, the growth being rounded from the unrounded difference. -/
def snapshotAt (ctv : ℚ) (p : ProjectionParams) (y : ℕ) : YearlyResult :=
  { year := y
    principal := jsRound (rawPrincipal ctv p y)
    interest := jsRound (rawTotal ctv p y - rawPrincipal ctv p y)
    total := jsRound (rawTotal ctv p y) }

/-- `projectionData` of the source: the year-0 snapshot (principal = total =
rounded starting value, growth 0) followed by one snapshot per year
1..`years`. -/
def projectionData (ctv : ℚ) (p : ProjectionParams) : List YearlyResult :=
  ⟨0, jsRound ctv, 0, jsRound ctv⟩ ::
    (List.range p.years).map (fun i => snapshotAt ctv p (i + 1))

/-! ## Guardrail withdrawal simulator -/

/-- `WithdrawalParams` of the source. -/
structure WithdrawalParams where
  initialRate : ℚ
  upperGuardrail : ℚ
  lowerGuardrail : ℚ
  expectedAPY : ℚ
  volatility : ℚ
  simulations : ℕ
  years : ℕ
deriving DecidableEq, Repr

/-- Which guardrail fired (`'upper' | 'lower'` in the source). -/
inductive Guardrail
  | upper
  | lower
deriving DecidableEq, Repr

/-- `WithdrawalResult` of the source: the record emitted for one simulated
year. -/
structure WithdrawalResult where
  year : ℕ
  portfolioValue : ℚ
  withdrawalAmount : ℚ
  withdrawalRate : ℚ
  returnRate : ℚ
  inflationAdjusted : Bool
  guardrailTriggered : Option Guardrail
deriving DecidableEq, Repr

/-- The output of one loop iteration of `runGKSimulation`: the emitted
record, the next year's withdrawal, and the new (unfloored) portfolio
value. -/
structure GKStepOut where
  res : WithdrawalResult
  nextWithdrawal : ℚ
  newPortfolio : ℚ
deriving DecidableEq, Repr

/-- One iteration of the `runGKSimulation` loop, given the sampled return
`r` for this year: deduct the withdrawal, apply growth, compute the current
withdrawal rate against the post-growth balance, and decide next year's
withdrawal by the priority-ordered Guyton-Klinger rules (upper guardrail,
else lower guardrail, else inflation bump on a gain, else unchanged). -/
def gkStep (params : WithdrawalParams) (initialWithdrawalRate : ℚ) (r : ℚ)
    (year : ℕ) (portfolioValue withdrawalAmount : ℚ) : GKStepOut :=
  let previousValue := portfolioValue - withdrawalAmount
  let newPV := previousValue * (1 + r)
  let portfolioGained := previousValue < newPV
  let currentRate := withdrawalAmount / newPV
  let next : ℚ × Option Guardrail × Bool :=
    if initialWithdrawalRate * (1 + params.upperGuardrail / 100) < currentRate then
      (withdrawalAmount * 0.9, some Guardrail.upper, false)
    else if currentRate < initialWithdrawalRate * (1 - params.lowerGuardrail / 100) then
      (withdrawalAmount * 1.1, some Guardrail.lower, false)
    else if portfolioGained then
      (withdrawalAmount * 1.03, none, true)
    else
      (withdrawalAmount, none, false)
  { res :=
      { year := year
        portfolioValue := max 0 newPV
        withdrawalAmount := withdrawalAmount
        withdrawalRate := currentRate * 100
        returnRate := r * 100
        inflationAdjusted := next.2.2
        guardrailTriggered := next.2.1 }
    nextWithdrawal := next.1
    newPortfolio := newPV }

/-- The year loop of `runGKSimulation`, with the remaining number of years
as fuel; `ret y` is the return sampled for year `y`.  The loop breaks right
after emitting the record of a year whose (unfloored) portfolio value is
≤ 0. -/
def gkLoop (params : WithdrawalParams) (initialWithdrawalRate : ℚ) (ret : ℕ → ℚ) :
    ℕ → ℕ → ℚ → ℚ → List WithdrawalResult
  | 0, _, _, _ => []
  | fuel + 1, year, portfolioValue, withdrawalAmount =>
    let out := gkStep params initialWithdrawalRate (ret year) year portfolioValue
      withdrawalAmount
    if out.newPortfolio ≤ 0 then [out.res]
    else out.res ::
      gkLoop params initialWithdrawalRate ret fuel (year + 1) out.newPortfolio
        out.nextWithdrawal

/-- `runGKSimulation` of the source, with the per-year sampled returns made
an explicit argument `ret`.  The initial withdrawal is
`startingValue * initialRate/100`, and `initialWithdrawalRate =
initialRate/100` stays fixed for all guardrail comparisons. -/
def runGKSimulation (startingValue : ℚ) (params : WithdrawalParams) (years : ℕ)
    (ret : ℕ → ℚ) : List WithdrawalResult :=
  gkLoop params (params.initialRate / 100) ret years 1 startingValue
    (startingValue * (params.initialRate / 100))

/-! ## Box-Muller return sampler -/

/-- `generateRandomReturn` of the source, with the two uniform draws made
explicit arguments: `mean + sqrt(-2 ln u1) · cos(2π u2) · stdDev`. -/
noncomputable def generateRandomReturn (mean stdDev u1 u2 : ℝ) : ℝ :=
  mean + Real.sqrt (-2 * Real.log u1) * Real.cos (2 * Real.pi * u2) * stdDev

/-- Modelled from the spec: the range of the host uniform sampler
(`Math.random`) feeding `generateRandomReturn`.  Per §7 of the spec the
draw `u1` can yield exactly 0 in the original (a known, unguarded edge
case), i.e. draws lie in the half-open interval [0, 1). -/
def uniformDrawRange : Set ℝ := Set.Ico 0 1

/-! ## Monte-Carlo batch statistics -/

/-- Whether a run counts as successful for `calculateSuccessRate`: its last
recorded year exists and has a positive portfolio value. -/
def simSuccessful (sim : List WithdrawalResult) : Bool :=
  match sim.getLast? with
  | none => false
  | some final => decide (0 < final.portfolioValue)

/-- `calculateSuccessRate` of the source: the share of successful runs,
as a percentage rounded to the nearest integer. -/
def calculateSuccessRate (sims : List (List WithdrawalResult)) : ℤ :=
  jsRound ((((sims.filter simSuccessful).length : ℚ) / (sims.length : ℚ)) * 100)

/-- The terminal portfolio value of a run (`sim[sim.length-1]?.portfolioValue
|| 0` in the source): 0 for an empty run. -/
def finalValue (sim : List WithdrawalResult) : ℚ :=
  match sim.getLast? with
  | none => 0
  | some final => final.portfolioValue

/-- `calculateMedianFinal` of the source: sort the terminal values
ascending and take the element at index `⌊n/2⌋`. -/
def calculateMedianFinal (sims : List (List WithdrawalResult)) : ℚ :=
  let finalValues := List.insertionSort (fun a b => a ≤ b) (sims.map finalValue)
  finalValues.getD (finalValues.length / 2) 0

/-! ## General lemmas about `jsRound` -/

theorem jsRound_cast (n : ℤ) : jsRound (n : ℚ) = n := by
  unfold jsRound
  rw [Int.floor_eq_iff]
  constructor
  · linarith
  · linarith

theorem jsRound_sub_ge (a b : ℚ) : jsRound a - jsRound b - 1 ≤ jsRound (a - b) := by
  have h5 : a - b + 1 / 2 - 1 < (jsRound (a - b) : ℚ) := Int.sub_one_lt_floor _
  have h6 : (jsRound a : ℚ) ≤ a + 1 / 2 := Int.floor_le _
  have h4 : b + 1 / 2 - 1 < (jsRound b : ℚ) := Int.sub_one_lt_floor _
  have hq : (jsRound a - jsRound b - 1 : ℚ) < (jsRound (a - b) : ℚ) + 1 := by linarith
  have hz : jsRound a - jsRound b - 1 < jsRound (a - b) + 1 := by exact_mod_cast hq
  omega

theorem jsRound_sub_le (a b : ℚ) : jsRound (a - b) ≤ jsRound a - jsRound b + 1 := by
  have h1 : (jsRound (a - b) : ℚ) ≤ a - b + 1 / 2 := Int.floor_le _
  have h2 : a + 1 / 2 - 1 < (jsRound a : ℚ) := Int.sub_one_lt_floor _
  have h3 : (jsRound b : ℚ) ≤ b + 1 / 2 := Int.floor_le _
  have hq : (jsRound (a - b) : ℚ) < (jsRound a - jsRound b + 1 : ℚ) + 1 := by linarith
  have hz : jsRound (a - b) < jsRound a - jsRound b + 1 + 1 := by exact_mod_cast hq
  omega

/-! ## Lemmas about the projector state -/

theorem principalNewTotal_monthStep (p : ProjectionParams) (s : ProjState) :
    (monthStep p s).principalNewTotal =
      s.principalNewTotal + (p.targets.map (fun t => t.monthlyAmount)).sum := rfl

theorem principalNewTotal_afterMonths (ctv : ℚ) (p : ProjectionParams) (m : ℕ) :
    (projStateAfterMonths ctv p m).principalNewTotal =
      (m : ℚ) * (p.targets.map (fun t => t.monthlyAmount)).sum := by
  induction m with
  | zero => simp [projStateAfterMonths]
  | succ k ih =>
    rw [projStateAfterMonths, principalNewTotal_monthStep, ih]
    push_cast
    ring_nf

theorem rawPrincipal_eq (ctv : ℚ) (p : ProjectionParams) (y : ℕ) :
    rawPrincipal ctv p y =
      ctv + 12 * (y : ℚ) * (p.targets.map (fun t => t.monthlyAmount)).sum := by
  rw [rawPrincipal, projStateAfterYears, principalNewTotal_afterMonths, Nat.cast_mul]
  ring

theorem rawTotal_zero (ctv : ℚ) (p : ProjectionParams) : rawTotal ctv p 0 = ctv := by
  have h : ((p.targets.map (fun _ => (0 : ℚ)))).sum = 0 := by
    simp
  rw [rawTotal, projStateAfterYears]
  show (projStateAfterMonths ctv p 0).valueFromInitial +
    (projStateAfterMonths ctv p 0).targetValues.sum = ctv
  rw [projStateAfterMonths]
  simp

/-- **C6** — In every snapshot emitted by the compound growth projector, the
principal equals `round(startingValue + 12 · year · (sum of the strategies'
monthly amounts))`; in particular it does not depend on any return rate. -/
theorem C6_principal_formula (ctv : ℚ) (p : ProjectionParams) (r : YearlyResult)
    (hr : r ∈ projectionData ctv p) :
    r.principal =
      jsRound (ctv + 12 * (r.year : ℚ) * (p.targets.map (fun t => t.monthlyAmount)).sum) := by
  rcases List.mem_cons.mp hr with h0 | hmem
  · subst h0
    show jsRound ctv = _
    norm_num
  · obtain ⟨i, _, rfl⟩ := List.mem_map.mp hmem
    have hy : (snapshotAt ctv p (i + 1)).year = i + 1 := rfl
    have hp : (snapshotAt ctv p (i + 1)).principal = jsRound (rawPrincipal ctv p (i + 1)) := rfl
    rw [hy, hp, rawPrincipal_eq]

/-- **C6** witness: for starting value 100 and a single strategy contributing
10 per month, the year-1 principal is `round(100 + 12·10) = 220`. -/
theorem C6_principal_formula_witness :
    (⟨1, 220, 0, 220⟩ : YearlyResult).principal =
      jsRound (100 + 12 * ((1 : ℕ) : ℚ) *
        (((⟨0, 1, [⟨10, 0⟩]⟩ : ProjectionParams).targets.map (fun t => t.monthlyAmount)).sum) ) := by
  have hmem : (⟨1, 220, 0, 220⟩ : YearlyResult) ∈ projectionData 100 ⟨0, 1, [⟨10, 0⟩]⟩ := by
    have he : projectionData 100 ⟨0, 1, [⟨10, 0⟩]⟩ =
        [⟨0, 100, 0, 100⟩, ⟨1, 220, 0, 220⟩] := by
      norm_num [projectionData, snapshotAt, rawTotal, rawPrincipal, projStateAfterYears,
        projStateAfterMonths, monthStep, jsRound, List.range_succ]
    rw [he]
    simp
  exact C6_principal_formula 100 ⟨0, 1, [⟨10, 0⟩]⟩ _ hmem

/-! ## C4 — growth vs rounded total minus rounded principal -/

/-- Evaluation helper: with starting value 2/5 and a 60% initial rate over
one year, the unrounded year-1 total is about 0.718, so the rounded fields
are total 1, principal 0, growth 0. -/
theorem projectionData_c4_eval :
    projectionData (2 / 5) ⟨60, 1, []⟩ = [⟨0, 0, 0, 0⟩, ⟨1, 0, 0, 1⟩] := by
  norm_num [projectionData, snapshotAt, rawTotal, rawPrincipal, projStateAfterYears,
    projStateAfterMonths, monthStep, jsRound, List.range_succ]

/-- **C4** counterexample: the claimed exact identity
`growth = total − principal` on the *rounded* snapshot fields fails: with
starting value 2/5 and a 60% initial rate, the year-1 snapshot has growth 0
but total − principal = 1 − 0 = 1 (each of the three fields is rounded
separately). -/
theorem C4_counterexample :
    ¬ (∀ r ∈ projectionData (2 / 5) ⟨60, 1, []⟩, r.interest = r.total - r.principal) := by
  intro h
  have hm : (⟨1, 0, 0, 1⟩ : YearlyResult) ∈ projectionData (2 / 5) ⟨60, 1, []⟩ := by
    rw [projectionData_c4_eval]
    simp
  have := h _ hm
  norm_num at this

/-- **C4** (amended) — For every snapshot of the compound growth projector,
the rounded growth field equals the rounding of the *unrounded* difference
total − principal; consequently it can differ from (rounded total −
rounded principal) by at most 1 in either direction, but need not equal it
exactly. -/
theorem C4_growth_rounding (ctv : ℚ) (p : ProjectionParams) (r : YearlyResult)
    (hr : r ∈ projectionData ctv p) :
    r.interest = jsRound (rawTotal ctv p r.year - rawPrincipal ctv p r.year) ∧
      r.total - r.principal - 1 ≤ r.interest ∧ r.interest ≤ r.total - r.principal + 1 := by
  rcases List.mem_cons.mp hr with h0 | hmem
  · subst h0
    refine ⟨?_, by norm_num, by norm_num⟩
    have h : rawTotal ctv p 0 - rawPrincipal ctv p 0 = 0 := by
      rw [rawTotal_zero, rawPrincipal_eq]
      push_cast
      ring
    rw [h]
    show (0 : ℤ) = jsRound 0
    norm_num [jsRound]
  · obtain ⟨i, _, rfl⟩ := List.mem_map.mp hmem
    refine ⟨rfl, ?_, ?_⟩
    · exact jsRound_sub_ge (rawTotal ctv p (i + 1)) (rawPrincipal ctv p (i + 1))
    · exact jsRound_sub_le (rawTotal ctv p (i + 1)) (rawPrincipal ctv p (i + 1))

/-- **C4** witness: the amended statement evaluated on the year-1 snapshot
of the counterexample inputs: growth 0 = round(raw difference), within 1 of
total − principal = 1. -/
theorem C4_growth_rounding_witness :
    (⟨1, 0, 0, 1⟩ : YearlyResult).interest =
        jsRound (rawTotal (2 / 5) ⟨60, 1, []⟩ 1 - rawPrincipal (2 / 5) ⟨60, 1, []⟩ 1) ∧
      (⟨1, 0, 0, 1⟩ : YearlyResult).total - (⟨1, 0, 0, 1⟩ : YearlyResult).principal - 1 ≤
        (⟨1, 0, 0, 1⟩ : YearlyResult).interest ∧
      (⟨1, 0, 0, 1⟩ : YearlyResult).interest ≤
        (⟨1, 0, 0, 1⟩ : YearlyResult).total - (⟨1, 0, 0, 1⟩ : YearlyResult).principal + 1 := by
  have hm : (⟨1, 0, 0, 1⟩ : YearlyResult) ∈ projectionData (2 / 5) ⟨60, 1, []⟩ := by
    rw [projectionData_c4_eval]
    simp
  exact C4_growth_rounding (2 / 5) ⟨60, 1, []⟩ _ hm

/-! ## C1 — the priority-ordered Guyton-Klinger decision rules -/

/-- **C1** — In each simulated year, next year's withdrawal is chosen by
mutually exclusive, priority-ordered checks of
`currentRate = withdrawalAmount / post-growth value` against the fixed
`initialWithdrawalRate`: above the upper threshold → ×0.9 and the upper
flag; else below the lower threshold → ×1.1 and the lower flag; else on a
strict gain → ×1.03 and the inflation flag; else unchanged with no flags.
The emitted record carries the withdrawal just applied and `currentRate×100`,
and the inflation flag excludes a guardrail flag. -/
theorem C1_gk_rules (params : WithdrawalParams) (iwr r pv w : ℚ) (year : ℕ) :
    ((iwr * (1 + params.upperGuardrail / 100) < w / ((pv - w) * (1 + r)) →
        (gkStep params iwr r year pv w).nextWithdrawal = w * 0.9 ∧
          (gkStep params iwr r year pv w).res.guardrailTriggered = some Guardrail.upper ∧
          (gkStep params iwr r year pv w).res.inflationAdjusted = false) ∧
      (¬ iwr * (1 + params.upperGuardrail / 100) < w / ((pv - w) * (1 + r)) →
        w / ((pv - w) * (1 + r)) < iwr * (1 - params.lowerGuardrail / 100) →
        (gkStep params iwr r year pv w).nextWithdrawal = w * 1.1 ∧
          (gkStep params iwr r year pv w).res.guardrailTriggered = some Guardrail.lower ∧
          (gkStep params iwr r year pv w).res.inflationAdjusted = false) ∧
      (¬ iwr * (1 + params.upperGuardrail / 100) < w / ((pv - w) * (1 + r)) →
        ¬ w / ((pv - w) * (1 + r)) < iwr * (1 - params.lowerGuardrail / 100) →
        pv - w < (pv - w) * (1 + r) →
        (gkStep params iwr r year pv w).nextWithdrawal = w * 1.03 ∧
          (gkStep params iwr r year pv w).res.guardrailTriggered = none ∧
          (gkStep params iwr r year pv w).res.inflationAdjusted = true) ∧
      (¬ iwr * (1 + params.upperGuardrail / 100) < w / ((pv - w) * (1 + r)) →
        ¬ w / ((pv - w) * (1 + r)) < iwr * (1 - params.lowerGuardrail / 100) →
        ¬ pv - w < (pv - w) * (1 + r) →
        (gkStep params iwr r year pv w).nextWithdrawal = w ∧
          (gkStep params iwr r year pv w).res.guardrailTriggered = none ∧
          (gkStep params iwr r year pv w).res.inflationAdjusted = false)) ∧
    (gkStep params iwr r year pv w).res.withdrawalAmount = w ∧
    (gkStep params iwr r year pv w).res.withdrawalRate = w / ((pv - w) * (1 + r)) * 100 ∧
    ((gkStep params iwr r year pv w).res.inflationAdjusted = true →
      (gkStep params iwr r year pv w).res.guardrailTriggered = none) := by
  simp only [gkStep]
  split_ifs with h1 h2 h3 <;> simp_all

/-- **C1** witness: a concrete step in which the upper guardrail fires
(rate 100% against a 4.8% threshold): the next withdrawal is cut to 90%,
the upper flag is set, and no inflation bump is applied. -/
theorem C1_gk_rules_witness :
    (gkStep ⟨4, 20, 20, 0, 0, 1, 5⟩ (4 / 100) 0 1 1000 500).nextWithdrawal = 500 * 0.9 ∧
      (gkStep ⟨4, 20, 20, 0, 0, 1, 5⟩ (4 / 100) 0 1 1000 500).res.guardrailTriggered =
        some Guardrail.upper ∧
      (gkStep ⟨4, 20, 20, 0, 0, 1, 5⟩ (4 / 100) 0 1 1000 500).res.inflationAdjusted = false :=
  (C1_gk_rules ⟨4, 20, 20, 0, 0, 1, 5⟩ (4 / 100) 0 1000 500 1).1.1 (by norm_num)

/-! ## Simple projection lemmas for `gkStep` -/

theorem gkStep_res_withdrawalAmount (params : WithdrawalParams) (iwr r pv w : ℚ) (year : ℕ) :
    (gkStep params iwr r year pv w).res.withdrawalAmount = w := rfl

theorem gkStep_res_portfolioValue (params : WithdrawalParams) (iwr r pv w : ℚ) (year : ℕ) :
    (gkStep params iwr r year pv w).res.portfolioValue = max 0 ((pv - w) * (1 + r)) := rfl

theorem gkStep_newPortfolio (params : WithdrawalParams) (iwr r pv w : ℚ) (year : ℕ) :
    (gkStep params iwr r year pv w).newPortfolio = (pv - w) * (1 + r) := rfl

theorem gkStep_res_withdrawalRate (params : WithdrawalParams) (iwr r pv w : ℚ) (year : ℕ) :
    (gkStep params iwr r year pv w).res.withdrawalRate = w / ((pv - w) * (1 + r)) * 100 := rfl

/-! ## C7 — termination and absorbing depletion -/

theorem gkLoop_length_le (params : WithdrawalParams) (iwr : ℚ) (ret : ℕ → ℚ) :
    ∀ fuel year pv w, (gkLoop params iwr ret fuel year pv w).length ≤ fuel := by
  intro fuel
  induction fuel with
  | zero => intro year pv w; simp [gkLoop]
  | succ k ih =>
    intro year pv w
    simp only [gkLoop]
    split_ifs with h
    · simp
    · simpa using ih (year + 1) _ _

theorem gkLoop_dropLast_pos (params : WithdrawalParams) (iwr : ℚ) (ret : ℕ → ℚ) :
    ∀ fuel year pv w,
      ((gkLoop params iwr ret fuel year pv w).dropLast.all
        (fun res => decide (0 < res.portfolioValue))) = true := by
  intro fuel
  induction fuel with
  | zero => intro year pv w; simp [gkLoop]
  | succ k ih =>
    intro year pv w
    simp only [gkLoop]
    split_ifs with h
    · simp
    · have hpos : (0 : ℚ) < (gkStep params iwr (ret year) year pv w).newPortfolio :=
        not_le.mp h
      have hall := ih (year + 1) (gkStep params iwr (ret year) year pv w).newPortfolio
        (gkStep params iwr (ret year) year pv w).nextWithdrawal
      rcases hr : gkLoop params iwr ret k (year + 1)
          (gkStep params iwr (ret year) year pv w).newPortfolio
          (gkStep params iwr (ret year) year pv w).nextWithdrawal with _ | ⟨a, t⟩
      · simp
      · rw [hr] at hall
        rw [List.dropLast_cons₂]
        simp only [List.all_cons, Bool.and_eq_true, decide_eq_true_eq]
        refine ⟨?_, hall⟩
        rw [gkStep_res_portfolioValue]
        rw [gkStep_newPortfolio] at hpos
        exact lt_max_iff.mpr (Or.inr hpos)

/-- **C7** — Every simulator run terminates with at most `years` emitted
records, and every non-final record has a positive reported portfolio
value; hence the first record whose portfolio value is ≤ 0 (if any) is the
last one — depletion is absorbing. -/
theorem C7_termination (sv : ℚ) (params : WithdrawalParams) (years : ℕ) (ret : ℕ → ℚ) :
    (runGKSimulation sv params years ret).length ≤ years ∧
      ((runGKSimulation sv params years ret).dropLast.all
        (fun res => decide (0 < res.portfolioValue))) = true := by
  exact ⟨gkLoop_length_le params (params.initialRate / 100) ret years 1 sv _,
    gkLoop_dropLast_pos params (params.initialRate / 100) ret years 1 sv _⟩

/-! ## C10 — withdrawals never turn negative -/

theorem gkStep_nextWithdrawal_nonneg (params : WithdrawalParams) (iwr r pv w : ℚ)
    (year : ℕ) (hw : 0 ≤ w) : 0 ≤ (gkStep params iwr r year pv w).nextWithdrawal := by
  simp only [gkStep]
  split_ifs
  · exact mul_nonneg hw (by norm_num)
  · exact mul_nonneg hw (by norm_num)
  · exact mul_nonneg hw (by norm_num)
  · exact hw

theorem gkLoop_all_withdrawal_nonneg (params : WithdrawalParams) (iwr : ℚ) (ret : ℕ → ℚ) :
    ∀ fuel year pv w, 0 ≤ w →
      ((gkLoop params iwr ret fuel year pv w).all
        (fun res => decide (0 ≤ res.withdrawalAmount))) = true := by
  intro fuel
  induction fuel with
  | zero => intro year pv w _; simp [gkLoop]
  | succ k ih =>
    intro year pv w hw
    simp only [gkLoop]
    split_ifs with h
    · simp only [List.all_cons, List.all_nil, Bool.and_true, decide_eq_true_eq]
      rw [gkStep_res_withdrawalAmount]
      exact hw
    · simp only [List.all_cons, Bool.and_eq_true, decide_eq_true_eq]
      constructor
      · rw [gkStep_res_withdrawalAmount]
        exact hw
      · exact ih (year + 1) _ _ (gkStep_nextWithdrawal_nonneg params iwr (ret year) pv w year hw)

/-- **C10** — With a non-negative starting value and initial rate, the
withdrawal amount recorded in every emitted year is non-negative: it starts
at `startingValue · initialRate/100 ≥ 0` and is only ever multiplied by the
positive factors 0.9, 1.1 and 1.03, with no clamping needed — even when
the portfolio balance goes negative. -/
theorem C10_withdrawal_nonneg (sv : ℚ) (params : WithdrawalParams) (years : ℕ)
    (ret : ℕ → ℚ) (hsv : 0 ≤ sv) (hrate : 0 ≤ params.initialRate) :
    ((runGKSimulation sv params years ret).all
      (fun res => decide (0 ≤ res.withdrawalAmount))) = true := by
  unfold runGKSimulation
  exact gkLoop_all_withdrawal_nonneg params (params.initialRate / 100) ret years 1 sv _
    (mul_nonneg hsv (div_nonneg hrate (by norm_num)))

/-- **C10** witness: the withdrawals of the deterministic depleting run
(starting value 1,000,000 at a 50% initial rate, zero returns) are all
non-negative even though the balance goes negative in year 3. -/
theorem C10_withdrawal_nonneg_witness :
    ((runGKSimulation 1000000 ⟨50, 20, 20, 0, 0, 1, 5⟩ 5 (fun _ => 0)).all
      (fun res => decide (0 ≤ res.withdrawalAmount))) = true :=
  C10_withdrawal_nonneg 1000000 ⟨50, 20, 20, 0, 0, 1, 5⟩ 5 (fun _ => 0)
    (by norm_num) (by norm_num)

/-! ## C2 — the deterministic zero-volatility example path -/

/-- Evaluation helper: the full deterministic run of the spec's example
(starting value 10,000,000, 4% initial rate, ±20% guardrails, zero mean
and volatility, 5 years). -/
theorem runGK_c2_eval :
    runGKSimulation 10000000 ⟨4, 20, 20, 0, 0, 1, 5⟩ 5 (fun _ => 0) =
      [⟨1, 9600000, 400000, 25 / 6, 0, false, none⟩,
       ⟨2, 9200000, 400000, 100 / 23, 0, false, none⟩,
       ⟨3, 8800000, 400000, 50 / 11, 0, false, none⟩,
       ⟨4, 8400000, 400000, 100 / 21, 0, false, none⟩,
       ⟨5, 8000000, 400000, 5, 0, false, some Guardrail.upper⟩] := by
  norm_num [runGKSimulation, gkLoop, gkStep]

/-- **C2** counterexample: the claim that no guardrail fires in any year of
the deterministic example is false — in year 5 the current rate is
400,000 / 8,000,000 = 5% > 4.8%, so the emitted year-5 record carries the
upper-guardrail flag. -/
theorem C2_counterexample :
    ¬ (∀ res ∈ runGKSimulation 10000000 ⟨4, 20, 20, 0, 0, 1, 5⟩ 5 (fun _ => 0),
        res.guardrailTriggered = none) := by
  intro h
  have hm : (⟨5, 8000000, 400000, 5, 0, false, some Guardrail.upper⟩ : WithdrawalResult) ∈
      runGKSimulation 10000000 ⟨4, 20, 20, 0, 0, 1, 5⟩ 5 (fun _ => 0) := by
    rw [runGK_c2_eval]
    simp
  have := h _ hm
  simp at this

/-- **C2** (amended) — With zero volatility every sampled return is exactly
the mean (0 here), and the example run is deterministic: the withdrawal
applied is 400,000 in every year, no inflation bump is ever applied (a flat
year is not a strict gain), the portfolio falls by 400,000 per year to
8,000,000 after year 5 — but in year 5 the current rate reaches 5% > 4.8%,
so the year-5 record does carry the upper-guardrail flag (affecting only
the never-simulated year 6); years 1–4 carry no flag. -/
theorem C2_deterministic_path :
    (∀ u1 u2 : ℝ, generateRandomReturn 0 0 u1 u2 = 0) ∧
      runGKSimulation 10000000 ⟨4, 20, 20, 0, 0, 1, 5⟩ 5 (fun _ => 0) =
        [⟨1, 9600000, 400000, 25 / 6, 0, false, none⟩,
         ⟨2, 9200000, 400000, 100 / 23, 0, false, none⟩,
         ⟨3, 8800000, 400000, 50 / 11, 0, false, none⟩,
         ⟨4, 8400000, 400000, 100 / 21, 0, false, none⟩,
         ⟨5, 8000000, 400000, 5, 0, false, some Guardrail.upper⟩] :=
  ⟨fun u1 u2 => by simp [generateRandomReturn], runGK_c2_eval⟩

/-! ## C5 — when only the inflation rule can apply -/

theorem gkStep_inflation_branch (params : WithdrawalParams) (iwr r pv w : ℚ) (year : ℕ)
    (hnu : ¬ iwr * (1 + params.upperGuardrail / 100) < w / ((pv - w) * (1 + r)))
    (hnl : ¬ w / ((pv - w) * (1 + r)) < iwr * (1 - params.lowerGuardrail / 100))
    (hg : pv - w < (pv - w) * (1 + r)) :
    (gkStep params iwr r year pv w).res.inflationAdjusted = true ∧
      (gkStep params iwr r year pv w).res.guardrailTriggered = none := by
  simp only [gkStep]
  split_ifs
  all_goals simp_all

theorem gkLoop_all_inflation (params : WithdrawalParams) (iwr : ℚ) (ret : ℕ → ℚ)
    (hret : ∀ y, 0 < ret y) :
    ∀ fuel year pv w,
      (∀ res ∈ gkLoop params iwr ret fuel year pv w,
          ¬ iwr * (1 + params.upperGuardrail / 100) < res.withdrawalRate / 100 ∧
          ¬ res.withdrawalRate / 100 < iwr * (1 - params.lowerGuardrail / 100)) →
      (∀ res ∈ gkLoop params iwr ret fuel year pv w, 0 < res.portfolioValue) →
      ((gkLoop params iwr ret fuel year pv w).all
        (fun res => res.inflationAdjusted && decide (res.guardrailTriggered = none))) = true := by
  intro fuel
  induction fuel with
  | zero => intro year pv w _ _; simp [gkLoop]
  | succ k ih =>
    intro year pv w hthresh hpos
    by_cases h : (gkStep params iwr (ret year) year pv w).newPortfolio ≤ 0
    · have hlist : gkLoop params iwr ret (k + 1) year pv w =
          [(gkStep params iwr (ret year) year pv w).res] := by
        simp only [gkLoop]
        rw [if_pos h]
      have h0 := hpos (gkStep params iwr (ret year) year pv w).res (by rw [hlist]; simp)
      rw [gkStep_res_portfolioValue] at h0
      rw [gkStep_newPortfolio] at h
      rcases lt_max_iff.mp h0 with h0 | h0
      · exact absurd h0 (lt_irrefl 0)
      · exact absurd h (not_le.mpr h0)
    · have hlist : gkLoop params iwr ret (k + 1) year pv w =
          (gkStep params iwr (ret year) year pv w).res ::
            gkLoop params iwr ret k (year + 1)
              (gkStep params iwr (ret year) year pv w).newPortfolio
              (gkStep params iwr (ret year) year pv w).nextWithdrawal := by
        simp only [gkLoop]
        rw [if_neg h]
      rw [hlist] at hthresh hpos ⊢
      have hnew : (0 : ℚ) < (pv - w) * (1 + ret year) := by
        have hh := not_le.mp h
        rwa [gkStep_newPortfolio] at hh
      have h1r : (0 : ℚ) < 1 + ret year := by linarith [hret year]
      have hpw : (0 : ℚ) < pv - w := by
        rcases mul_pos_iff.mp hnew with ⟨ha, _⟩ | ⟨_, hb⟩
        · exact ha
        · linarith
      have hg : pv - w < (pv - w) * (1 + ret year) := by
        have hexp : (pv - w) * (1 + ret year) = (pv - w) + (pv - w) * ret year := by ring
        have hprod := mul_pos hpw (hret year)
        linarith
      obtain ⟨hnu, hnl⟩ := hthresh _ (List.mem_cons_self _ _)
      rw [gkStep_res_withdrawalRate] at hnu hnl
      have hcancel : w / ((pv - w) * (1 + ret year)) * 100 / 100 =
          w / ((pv - w) * (1 + ret year)) := by ring
      rw [hcancel] at hnu hnl
      obtain ⟨hinf, hg0⟩ := gkStep_inflation_branch params iwr (ret year) pv w year hnu hnl hg
      simp only [List.all_cons, Bool.and_eq_true]
      refine ⟨?_, ih (year + 1) _ _
        (fun res hres => hthresh res (List.mem_cons_of_mem _ hres))
        (fun res hres => hpos res (List.mem_cons_of_mem _ hres))⟩
      rw [hinf, hg0]
      simp

/-- Evaluation helper: the deterministic zero-return run with huge (±1000%)
guardrails — the guardrail conditions are never satisfied, yet no record is
inflation-adjusted because a flat year is not a strict gain. -/
theorem runGK_c5_eval :
    runGKSimulation 10000000 ⟨4, 1000, 1000, 0, 0, 1, 5⟩ 5 (fun _ => 0) =
      [⟨1, 9600000, 400000, 25 / 6, 0, false, none⟩,
       ⟨2, 9200000, 400000, 100 / 23, 0, false, none⟩,
       ⟨3, 8800000, 400000, 50 / 11, 0, false, none⟩,
       ⟨4, 8400000, 400000, 100 / 21, 0, false, none⟩,
       ⟨5, 8000000, 400000, 5, 0, false, none⟩] := by
  norm_num [runGKSimulation, gkLoop, gkStep]

/-- **C5** counterexample: in the zero-return run with ±1000% guardrails the
returns are all non-negative and neither guardrail condition is ever
satisfied, yet no emitted year carries the inflation flag — the claim that
every year must be inflation-adjusted under merely *non-negative* returns
is false (a flat year is not a strict gain). -/
theorem C5_counterexample :
    (∀ y : ℕ, 0 ≤ (fun _ : ℕ => (0 : ℚ)) y) ∧
      (∀ res ∈ runGKSimulation 10000000 ⟨4, 1000, 1000, 0, 0, 1, 5⟩ 5 (fun _ => 0),
          ¬ (4 : ℚ) / 100 * (1 + 1000 / 100) < res.withdrawalRate / 100 ∧
          ¬ res.withdrawalRate / 100 < (4 : ℚ) / 100 * (1 - 1000 / 100)) ∧
      ¬ (∀ res ∈ runGKSimulation 10000000 ⟨4, 1000, 1000, 0, 0, 1, 5⟩ 5 (fun _ => 0),
          res.inflationAdjusted = true) := by
  refine ⟨fun y => le_refl 0, ?_, ?_⟩
  · intro res hres
    rw [runGK_c5_eval] at hres
    fin_cases hres <;> constructor <;> norm_num
  · intro hh
    have hm : (⟨1, 9600000, 400000, 25 / 6, 0, false, none⟩ : WithdrawalResult) ∈
        runGKSimulation 10000000 ⟨4, 1000, 1000, 0, 0, 1, 5⟩ 5 (fun _ => 0) := by
      rw [runGK_c5_eval]
      simp
    have := hh _ hm
    simp at this

/-- **C5** (amended) — If every sampled return is strictly positive, every
reported portfolio value stays positive, and the guardrail conditions
(checked against the fixed initial rate) are never satisfied in the run,
then every emitted record carries the inflation flag and no guardrail
flag. -/
theorem C5_inflation_only (sv : ℚ) (params : WithdrawalParams) (years : ℕ) (ret : ℕ → ℚ)
    (hret : ∀ y, 0 < ret y)
    (hthresh : ∀ res ∈ runGKSimulation sv params years ret,
        ¬ params.initialRate / 100 * (1 + params.upperGuardrail / 100) <
            res.withdrawalRate / 100 ∧
        ¬ res.withdrawalRate / 100 <
            params.initialRate / 100 * (1 - params.lowerGuardrail / 100))
    (hpos : ∀ res ∈ runGKSimulation sv params years ret, 0 < res.portfolioValue) :
    ((runGKSimulation sv params years ret).all
      (fun res => res.inflationAdjusted && decide (res.guardrailTriggered = none))) = true := by
  unfold runGKSimulation at hthresh hpos ⊢
  exact gkLoop_all_inflation params (params.initialRate / 100) ret hret years 1 sv _
    hthresh hpos

/-- Evaluation helper: a 3-year run at a constant +1% return with ±20%
guardrails, in which the rate stays inside the guardrail band every year. -/
theorem runGK_c5pos_eval :
    runGKSimulation 10000000 ⟨4, 20, 20, 0, 0, 1, 3⟩ 3 (fun _ => 1 / 100) =
      [⟨1, 9696000, 400000, 1250 / 303, 1, true, none⟩,
       ⟨2, 9376840, 412000, 1030000 / 234421, 1, true, none⟩,
       ⟨3, 45210024 / 5, 424360, 26522500 / 5651253, 1, true, none⟩] := by
  norm_num [runGKSimulation, gkLoop, gkStep]

/-- **C5** witness: the 3-year +1%-return run satisfies the amended
hypotheses, so every record is inflation-adjusted with no guardrail flag. -/
theorem C5_inflation_only_witness :
    ((runGKSimulation 10000000 ⟨4, 20, 20, 0, 0, 1, 3⟩ 3 (fun _ => 1 / 100)).all
      (fun res => res.inflationAdjusted && decide (res.guardrailTriggered = none))) = true := by
  apply C5_inflation_only 10000000 ⟨4, 20, 20, 0, 0, 1, 3⟩ 3 (fun _ => 1 / 100)
  · intro y
    norm_num
  · intro res hres
    rw [runGK_c5pos_eval] at hres
    fin_cases hres <;> constructor <;> norm_num
  · intro res hres
    rw [runGK_c5pos_eval] at hres
    fin_cases hres <;> norm_num

/-! ## C8 — the success-rate statistic -/

/-- **C8** — For a non-empty batch, the success rate equals the number of
runs whose last recorded year has a positive portfolio value, divided by
the number of runs, times 100, rounded to the nearest integer. -/
theorem C8_success_rate (sims : List (List WithdrawalResult)) (_h : sims ≠ []) :
    calculateSuccessRate sims =
      jsRound (((sims.countP (fun sim =>
          sim.getLast?.elim false (fun final => decide (0 < final.portfolioValue)))) : ℚ) /
        (sims.length : ℚ) * 100) := by
  have hpred : (fun sim : List WithdrawalResult =>
      sim.getLast?.elim false (fun final => decide (0 < final.portfolioValue))) =
      simSuccessful := by
    funext sim
    unfold simSuccessful
    cases hg : sim.getLast? <;> rfl
  rw [hpred, List.countP_eq_length_filter]
  rfl

/-- **C8** witness: a batch of two runs, one ending at value 1 and one with
no recorded years, has success rate `round(1/2·100) = 50`. -/
theorem C8_success_rate_witness :
    calculateSuccessRate [[⟨1, 1, 0, 0, 0, false, none⟩], []] =
      jsRound ((((([[(⟨1, 1, 0, 0, 0, false, none⟩ : WithdrawalResult)], []]).countP
          (fun sim =>
            sim.getLast?.elim false (fun final => decide (0 < final.portfolioValue)))) : ℚ)) /
        ((([[(⟨1, 1, 0, 0, 0, false, none⟩ : WithdrawalResult)], []]).length : ℚ)) * 100) :=
  C8_success_rate [[⟨1, 1, 0, 0, 0, false, none⟩], []] (by simp)

/-! ## C9 — the Box-Muller sampler -/

/-- **C9** counterexample: the uniform draws feeding the sampler come from
[0, 1) (the host RNG can return exactly 0, unguarded), not from the open
interval (0, 1) as claimed. -/
theorem C9_counterexample :
    (0 : ℝ) ∈ uniformDrawRange ∧ (0 : ℝ) ∉ Set.Ioo (0 : ℝ) 1 := by
  constructor
  · exact ⟨le_refl 0, zero_lt_one⟩
  · simp

/-- **C9** (amended) — The sampled return is
`mean + sqrt(-2 ln u1) · cos(2π u2) · stdDev`; whenever the draw `u1` lies
in the open interval (0, 1) the radicand `-2 ln u1` is non-negative, so the
value is a well-defined real number.  (The code does not guard the
`u1 = 0` draw, which `Math.random` can produce.) -/
theorem C9_box_muller (mean stdDev u1 u2 : ℝ) (h1 : 0 < u1) (h2 : u1 < 1) :
    generateRandomReturn mean stdDev u1 u2 =
      mean + Real.sqrt (-2 * Real.log u1) * Real.cos (2 * Real.pi * u2) * stdDev ∧
      0 ≤ -2 * Real.log u1 := by
  refine ⟨rfl, ?_⟩
  have hl : Real.log u1 ≤ 0 := Real.log_nonpos (le_of_lt h1) (le_of_lt h2)
  linarith

/-- **C9** witness: the sampler at `u1 = 1/2`, `u2 = 1/4`. -/
theorem C9_box_muller_witness :
    generateRandomReturn 0 1 (1 / 2) (1 / 4) =
      0 + Real.sqrt (-2 * Real.log (1 / 2)) * Real.cos (2 * Real.pi * (1 / 4)) * 1 ∧
      0 ≤ -2 * Real.log ((1 : ℝ) / 2) :=
  C9_box_muller 0 1 (1 / 2) (1 / 4) (by norm_num) (by norm_num)

/-! ## C3 — the median-final-value statistic -/

/-- **C3** counterexample: for a two-run batch with terminal values 1 and 2
the statistic picks index `⌊2/2⌋ = 1` of the ascending sort `[1, 2]`,
i.e. 2 — the *upper* median — whereas the lower median of an even-sized
batch is the element at index `n/2 - 1`, here 1. -/
theorem C3_counterexample :
    calculateMedianFinal [[⟨1, 1, 0, 0, 0, false, none⟩], [⟨1, 2, 0, 0, 0, false, none⟩]] = 2 ∧
      List.insertionSort (fun a b => a ≤ b)
        (([[(⟨1, 1, 0, 0, 0, false, none⟩ : WithdrawalResult)],
           [⟨1, 2, 0, 0, 0, false, none⟩]]).map finalValue) = [1, 2] ∧
      ([1, 2] : List ℚ).getD (2 / 2 - 1) 0 = 1 ∧ (2 : ℚ) ≠ 1 := by
  refine ⟨?_, ?_, by norm_num, by norm_num⟩
  · norm_num [calculateMedianFinal, finalValue, List.insertionSort, List.orderedInsert,
      List.getLast?]
  · norm_num [finalValue, List.insertionSort, List.orderedInsert, List.getLast?]

/-- **C3** (amended) — For every non-empty batch, the median statistic
equals the element at index `⌊n/2⌋` of the ascending sort of the terminal
values (`L` below being any sorted rearrangement of them); for an even
number of runs this is the *upper* median: the other middle element, at
index `n/2 - 1`, is ≤ the statistic. -/
theorem C3_median (sims : List (List WithdrawalResult)) (L : List ℚ)
    (h0 : sims ≠ []) (hs : L.Sorted (· ≤ ·)) (hp : L.Perm (sims.map finalValue)) :
    calculateMedianFinal sims = L.getD (sims.length / 2) 0 ∧
      (sims.length % 2 = 0 →
        L.getD (sims.length / 2 - 1) 0 ≤ calculateMedianFinal sims) := by
  have hsort : List.insertionSort (fun a b => a ≤ b) (sims.map finalValue) = L :=
    List.eq_of_perm_of_sorted ((List.perm_insertionSort _ _).trans hp.symm)
      (List.sorted_insertionSort _ _) hs
  have hlen : L.length = sims.length := by
    rw [hp.length_eq, List.length_map]
  have hmed : calculateMedianFinal sims = L.getD (sims.length / 2) 0 := by
    unfold calculateMedianFinal
    rw [hsort]
    show L.getD (L.length / 2) 0 = L.getD (sims.length / 2) 0
    rw [hlen]
  refine ⟨hmed, fun heven => ?_⟩
  rw [hmed]
  have hn : 1 ≤ sims.length := List.length_pos.mpr h0
  have hn2 : 2 ≤ sims.length := by omega
  have hi : sims.length / 2 - 1 < L.length := by omega
  have hj : sims.length / 2 < L.length := by omega
  rw [List.getD_eq_get L 0 hi, List.getD_eq_get L 0 hj]
  refine hs.rel_get_of_lt ?_
  show (⟨sims.length / 2 - 1, hi⟩ : Fin L.length) < ⟨sims.length / 2, hj⟩
  exact Fin.mk_lt_mk.mpr (by omega)

/-- **C3** witness: the amended statement on the two-run batch with
terminal values 1 and 2 and its sorted value list `[1, 2]`. -/
theorem C3_median_witness :
    calculateMedianFinal [[⟨1, 1, 0, 0, 0, false, none⟩], [⟨1, 2, 0, 0, 0, false, none⟩]] =
        ([1, 2] : List ℚ).getD
          (([[(⟨1, 1, 0, 0, 0, false, none⟩ : WithdrawalResult)],
             [⟨1, 2, 0, 0, 0, false, none⟩]]).length / 2) 0 ∧
      (([[(⟨1, 1, 0, 0, 0, false, none⟩ : WithdrawalResult)],
         [⟨1, 2, 0, 0, 0, false, none⟩]]).length % 2 = 0 →
        ([1, 2] : List ℚ).getD
            (([[(⟨1, 1, 0, 0, 0, false, none⟩ : WithdrawalResult)],
               [⟨1, 2, 0, 0, 0, false, none⟩]]).length / 2 - 1) 0 ≤
          calculateMedianFinal
            [[⟨1, 1, 0, 0, 0, false, none⟩], [⟨1, 2, 0, 0, 0, false, none⟩]]) := by
  apply C3_median
  · simp
  · simp [List.sorted_cons]
  · have hm : ([[(⟨1, 1, 0, 0, 0, false, none⟩ : WithdrawalResult)],
        [⟨1, 2, 0, 0, 0, false, none⟩]]).map finalValue = [1, 2] := by
      norm_num [finalValue, List.getLast?]
    rw [hm]

end DWS
